import Mathlib

/-!
Shallow embedding of scripts/openai_assistant.py: a CI bot that reads a
webhook event, builds a chat prompt for a pull request or issue, calls a
completion API with retry/backoff, and posts the reply as a comment with a
best-effort label.  External collaborators (the completion API, the hosting
API) are modelled as oracles in a World record; the observable behaviour of
a run is a list of Effects plus a process exit code.
-/

namespace Assistant

/-- Role of a chat message (the "role" key of the dicts the script builds). -/
inductive Role where
  | system
  | user
  deriving DecidableEq, Repr

/-- A chat message as built by build_pr_prompt / build_issue_prompt. -/
structure Message where
  role : Role
  content : String
  deriving DecidableEq, Repr

/-- Observable side effects of a run: log lines, the sleep during retry
backoff (seconds, exact rationals standing for the Python floats), the
completion-call attempts, and the hosting-service writes. -/
inductive Effect where
  | logInfo (msg : String)
  | logWarning (msg : String)
  | logError (msg : String)
  | fetchFiles
  | callAttempt (n : Nat)
  | sleep (seconds : ℚ)
  | postComment (repo : String) (number : Int) (body : String)
  | addLabel (name : String)
  | createLabel (name : String) (color : String) (description : String)
  deriving DecidableEq, Repr

/-- Environment-derived configuration (the module-level constants of the
script).  OPENAI_API_KEY and GITHUB_TOKEN are optional strings, checked for
Python truthiness (absent or empty means falsy). -/
structure Config where
  openai_api_key : Option String
  github_token : Option String
  retry_attempts : Nat
  retry_backoff : ℚ
  assistant_label : String
  max_snippet_files : Nat
  deriving Repr

/-- The optional .github/assistant-config.yaml contents the builders read. -/
structure AssistantConfig where
  system_prompt : Option String
  pr_prompt : Option String
  issue_prompt : Option String
  sensitive_paths : List String
  max_file_snippet_lines : Nat
  deriving Repr

/-- The "pull_request" / "issue" sub-dict of the event payload. -/
structure EntityPayload where
  title : Option String
  body : Option String
  number : Option Int
  deriving DecidableEq, Repr

/-- The parsed event payload: presence of the top-level keys and the
repository full name. -/
structure Payload where
  pull_request : Option EntityPayload
  issue : Option EntityPayload
  repository_full_name : Option String
  deriving DecidableEq, Repr

/-- External world: the completion API as a function from the sent messages
and the (1-based) attempt number to failure or the reply content; the
hosting-service reads (changed files, snippet text per path, existing label
names). -/
structure World where
  api : List Message → Nat → Except Unit String
  changedFiles : List String
  snippetOf : String → String
  labels : List String

/-- Python truthiness of an optional string: None and "" are falsy. -/
def truthy (o : Option String) : Bool :=
  match o with
  | none => false
  | some s => !(s.isEmpty)

/-- Whitespace characters removed by Python str.strip(). -/
def isPySpace (c : Char) : Bool :=
  c = ' ' || c = '\t' || c = '\n' || c = '\r' || c = '\x0b' || c = '\x0c'

/-- Python str.strip(): drop leading and trailing whitespace. -/
def pyStrip (s : String) : String :=
  String.mk (((s.data.dropWhile isPySpace).reverse.dropWhile isPySpace).reverse)

/-- Read the name of a replacement field up to the closing brace.  Returns
none when the brace is unmatched or a nested brace appears (str.format
raises there). -/
def splitName : List Char → Option (List Char × List Char)
  | [] => none
  | '}' :: rest => some ([], rest)
  | '{' :: _ => none
  | c :: rest => (splitName rest).map (fun pr => (c :: pr.1, pr.2))

/-- Value of a keyword field passed to str.format. -/
def lookupField (fields : List (String × String)) (k : String) : Option String :=
  (fields.find? (fun q => q.1 == k)).map (fun q => q.2)

/-- Core of the model of Python str.format with keyword arguments: doubled
braces are literals, a replacement field is substituted by its keyword
value, and an unknown field name, an unmatched brace or a stray closing
brace yields none (the exception the script catches).  Format
specifications and conversions are not modelled; fuel is the remaining
character count, so the 0/cons case is unreachable from formatTemplate. -/
def formatAux (fields : List (String × String)) : Nat → List Char → Option (List Char)
  | _, [] => some []
  | 0, _ :: _ => none
  | fuel + 1, '{' :: '{' :: rest => (formatAux fields fuel rest).map (fun t => '{' :: t)
  | fuel + 1, '}' :: '}' :: rest => (formatAux fields fuel rest).map (fun t => '}' :: t)
  | _ + 1, '}' :: _ => none
  | fuel + 1, '{' :: rest =>
    match splitName rest with
    | none => none
    | some (nameCs, rem) =>
      match lookupField fields (String.mk nameCs) with
      | none => none
      | some v => (formatAux fields fuel rem).map (fun t => v.data ++ t)
  | fuel + 1, c :: rest => (formatAux fields fuel rest).map (fun t => c :: t)

/-- Model of tmpl.format(**fields): some result on success, none when
formatting raises. -/
def formatTemplate (fields : List (String × String)) (tmpl : String) : Option String :=
  (formatAux fields tmpl.data.length tmpl.data).map String.mk

-- Log message constants (format arguments of the source's log calls are not
-- interpolated into the modelled text).
def skipMsg : String := "Skipping OpenAI call because OPENAI_API_KEY is not set."
def warnMsg : String := "OpenAI call failed (attempt %d/%d): %s. Retrying in %.1fs"
def exhaustMsg : String := "OpenAI calls failed after %d attempts: %s"
def ghSkipMsg : String := "GITHUB_TOKEN not available; skipping comment/label creation."
def prAbortMsg : String := "PR payload missing repository or pr number; aborting."
def issueAbortMsg : String := "Issue payload missing repository or issue number; aborting."
def prHandlingMsg : String := "Handling PR %s#%s"
def issueHandlingMsg : String := "Handling issue %s#%s"
def prNoSuggMsg : String := "No suggestion returned from OpenAI for PR."
def issueNoSuggMsg : String := "No suggestion returned from OpenAI for issue."
def noopMsg : String := "Event is not a pull_request or issue; nothing to do."
def parseFailMsg : String := "Failed to parse GITHUB_EVENT_PATH JSON"

/-- The retry loop of call_openai_chat: fuel is the number of attempts still
allowed, the second argument the 1-based attempt number.  On success the
reply content is stripped and returned; on failure the loop logs a warning,
sleeps backoff ** attempt seconds and retries. -/
def retryLoop (api : Nat → Except Unit String) (backoff : ℚ) :
    Nat → Nat → List Effect × Option String
  | 0, _ => ([], none)
  | k + 1, attempt =>
    let r := retryLoop api backoff k (attempt + 1)
    match api attempt with
    | Except.ok content => ([Effect.callAttempt attempt], some (pyStrip content))
    | Except.error _ =>
      (Effect.callAttempt attempt :: Effect.logWarning warnMsg ::
        Effect.sleep (backoff ^ attempt) :: r.1, r.2)

/-- call_openai_chat: skip entirely (returning None) when no API key is
configured, otherwise run up to retry_attempts attempts starting at attempt
number 1 and log an error if all fail. -/
def call_openai_chat (cfg : Config) (w : World) (messages : List Message) :
    List Effect × Option String :=
  if truthy cfg.openai_api_key then
    let r := retryLoop (w.api messages) cfg.retry_backoff cfg.retry_attempts 1
    match r.2 with
    | some c => (r.1, some c)
    | none => (r.1 ++ [Effect.logError exhaustMsg], none)
  else ([Effect.logInfo skipMsg], none)

/-- safe_post_comment_and_label: with a hosting token, post the comment and
then attach the configured label, creating it first when it is not among
the repository's labels; without a token, only log. -/
def safe_post_comment_and_label (cfg : Config) (w : World) (repo_full : String)
    (number : Int) (bodyText : String) : List Effect :=
  if truthy cfg.github_token then
    Effect.postComment repo_full number bodyText ::
      (if w.labels.contains cfg.assistant_label then
        [Effect.addLabel cfg.assistant_label]
      else
        [Effect.createLabel cfg.assistant_label "f29513" "AI-assisted content",
         Effect.addLabel cfg.assistant_label])
  else [Effect.logInfo ghSkipMsg]

/-- The changed_files_list string of build_pr_prompt. -/
def changedFilesList (changed_files : List String) : String :=
  if changed_files.isEmpty then "No file list available."
  else String.intercalate "\n" (changed_files.map (fun p => "- " ++ p))

/-- Keyword fields supplied to the pr_prompt template. -/
def prFields (title bodyText : String) (changed_files : List String)
    (repo_full : String) (pr_number : Int) : List (String × String) :=
  [("title", title), ("body", bodyText),
   ("changed_files_list", changedFilesList changed_files),
   ("repo_full", repo_full), ("pr_number", toString pr_number)]

/-- The user content substituted when formatting the pr_prompt template
raises. -/
def prFallbackUser (title bodyText : String) (changed_files : List String) : String :=
  "PR title: " ++ title ++ "\n\nPR body:\n" ++ bodyText ++ "\n\nChanged files:\n" ++
    changedFilesList changed_files

/-- The Task sentence that ends the no-template default of the PR builder
but is absent from its template-failure fallback. -/
def prTaskSentence : String :=
  "\n\nTask: Write a concise, reviewer-friendly PR description and a focused reviewer checklist. Highlight any security-sensitive files and recommend manual checks."

/-- The user content used when no pr_prompt template is configured: the
fallback header plus the trailing Task sentence. -/
def prDefaultUser (title bodyText : String) (changed_files : List String) : String :=
  prFallbackUser title bodyText changed_files ++ prTaskSentence

/-- The user-content computation of build_pr_prompt. -/
def prUserContent (title bodyText : String) (changed_files : List String)
    (repo_full : String) (pr_number : Int) (ac : AssistantConfig) : String :=
  let pr_template := ac.pr_prompt.getD ""
  if pr_template.isEmpty then prDefaultUser title bodyText changed_files
  else
    match formatTemplate (prFields title bodyText changed_files repo_full pr_number)
        pr_template with
    | some s => s
    | none => prFallbackUser title bodyText changed_files

def prDefaultSystem : String :=
  "You are a cautious, security-minded coding assistant. Prioritize human review and be concise."

/-- build_pr_prompt: system message from config-or-default, a context user
message listing changed files, sensitive paths and snippets, and the task
user message. -/
def build_pr_prompt (title bodyText : String) (changed_files : List String)
    (snippets : List (String × String)) (repo_full : String) (pr_number : Int)
    (ac : AssistantConfig) : List Message :=
  let sys := ac.system_prompt.getD prDefaultSystem
  let user_content := prUserContent title bodyText changed_files repo_full pr_number ac
  let context_lines :=
    ["Changed files (top-level list):", changedFilesList changed_files, "",
     "Sensitive path patterns:"]
    ++ ac.sensitive_paths.map (fun p => "- " ++ p)
    ++ (if snippets.isEmpty then []
        else ["\nSnippets from changed files (limited):"]
          ++ snippets.flatMap (fun q =>
               ["--- " ++ q.1 ++ " ---",
                if q.2.isEmpty then "(no snippet available)" else q.2]))
  let context_block := String.intercalate "\n" context_lines
  [⟨Role.system, sys⟩, ⟨Role.user, context_block⟩, ⟨Role.user, user_content⟩]

/-- Keyword fields supplied to the issue_prompt template. -/
def issueFields (title bodyText repo_full : String) (issue_number : Int) :
    List (String × String) :=
  [("title", title), ("body", bodyText), ("repo_full", repo_full),
   ("issue_number", toString issue_number)]

/-- The issue builder's default task sentence; in the source the
template-failure fallback and the no-template default are textually
identical f-strings, both equal to this. -/
def issueFallbackUser (title bodyText : String) : String :=
  "Issue title: " ++ title ++ "\n\nBody:\n" ++ bodyText ++
    "\n\nTask: Triage this issue, suggest severity and next steps."

/-- The user-content computation of build_issue_prompt. -/
def issueUserContent (title bodyText repo_full : String) (issue_number : Int)
    (ac : AssistantConfig) : String :=
  let issue_template := ac.issue_prompt.getD ""
  if issue_template.isEmpty then issueFallbackUser title bodyText
  else
    match formatTemplate (issueFields title bodyText repo_full issue_number)
        issue_template with
    | some s => s
    | none => issueFallbackUser title bodyText

def issueDefaultSystem : String :=
  "You are a careful triage assistant. Request reproduction steps and emphasize security when relevant."

/-- build_issue_prompt: system message from config-or-default and the task
user message. -/
def build_issue_prompt (title bodyText repo_full : String) (issue_number : Int)
    (ac : AssistantConfig) : List Message :=
  [⟨Role.system, ac.system_prompt.getD issueDefaultSystem⟩,
   ⟨Role.user, issueUserContent title bodyText repo_full issue_number ac⟩]

/-- Python dict assignment d[k] = v on an insertion-ordered association
list: overwrite in place when the key exists, else append. -/
def dictInsert (d : List (String × String)) (k v : String) : List (String × String) :=
  if d.any (fun q => q.1 == k) then d.map (fun q => if q.1 == k then (k, v) else q)
  else d ++ [(k, v)]

/-- The snippet-dict construction of handle_pull_request: iterate over the
first max_snippet_files changed files (the whole loop is skipped when the
list is empty) and store a snippet per path. -/
def buildSnippets (w : World) (changed_files : List String) (maxFiles : Nat) :
    List (String × String) :=
  (if changed_files.isEmpty then [] else changed_files.take maxFiles).foldl
    (fun acc path => dictInsert acc path (w.snippetOf path)) []

def prCommentPre : String :=
  ":robot: AI assistant suggestion (please review carefully):\n\n"
def prCommentSuf : String :=
  "\n\n_Note: This is an automated suggestion. All AI-generated content must be reviewed by a human before merging._"
def issueCommentPre : String :=
  ":robot: AI assistant triage suggestion (please review):\n\n"
def issueCommentSuf : String :=
  "\n\n_Note: This is an automated suggestion. All AI-generated content must be reviewed by a human._"

/-- handle_pull_request: validate the payload, fetch changed files when a
hosting token is present, build snippets and the prompt, call the
completion API, and post the comment unless the suggestion is falsy. -/
def handle_pull_request (cfg : Config) (ac : AssistantConfig) (w : World)
    (payload : Payload) : List Effect :=
  let pr := payload.pull_request.getD ⟨none, none, none⟩
  let title := pr.title.getD ""
  let bodyText := pr.body.getD ""
  let repo_full := payload.repository_full_name.getD ""
  match pr.number with
  | none => [Effect.logError prAbortMsg]
  | some pr_number =>
    if repo_full.isEmpty then [Effect.logError prAbortMsg]
    else
      let fetchEff := if truthy cfg.github_token then [Effect.fetchFiles] else []
      let changed_files := if truthy cfg.github_token then w.changedFiles else []
      let snippets := buildSnippets w changed_files cfg.max_snippet_files
      let messages :=
        build_pr_prompt title bodyText changed_files snippets repo_full pr_number ac
      let res := call_openai_chat cfg w messages
      Effect.logInfo prHandlingMsg :: fetchEff ++ res.1 ++
        (match res.2 with
         | none => [Effect.logInfo prNoSuggMsg]
         | some s =>
           if s.isEmpty then [Effect.logInfo prNoSuggMsg]
           else safe_post_comment_and_label cfg w repo_full pr_number
                  (prCommentPre ++ s ++ prCommentSuf))

/-- handle_issue: validate the payload, build the prompt, call the
completion API, and post the comment unless the suggestion is falsy. -/
def handle_issue (cfg : Config) (ac : AssistantConfig) (w : World)
    (payload : Payload) : List Effect :=
  let issue := payload.issue.getD ⟨none, none, none⟩
  let title := issue.title.getD ""
  let bodyText := issue.body.getD ""
  let repo_full := payload.repository_full_name.getD ""
  match issue.number with
  | none => [Effect.logError issueAbortMsg]
  | some issue_number =>
    if repo_full.isEmpty then [Effect.logError issueAbortMsg]
    else
      let messages := build_issue_prompt title bodyText repo_full issue_number ac
      let res := call_openai_chat cfg w messages
      Effect.logInfo issueHandlingMsg :: res.1 ++
        (match res.2 with
         | none => [Effect.logInfo issueNoSuggMsg]
         | some s =>
           if s.isEmpty then [Effect.logInfo issueNoSuggMsg]
           else safe_post_comment_and_label cfg w repo_full issue_number
                  (issueCommentPre ++ s ++ issueCommentSuf))

/-- main: dispatch on the top-level keys of the event; the model is total,
so the except-then-exit-1 branch of the source is unreachable and the exit
status is always 0. -/
def mainRun (cfg : Config) (ac : AssistantConfig) (w : World) (event : Payload) :
    List Effect × Nat :=
  if event.pull_request.isSome then (handle_pull_request cfg ac w event, 0)
  else if event.issue.isSome then (handle_issue cfg ac w event, 0)
  else ([Effect.logInfo noopMsg], 0)

/-- The module-level event loading: json.load wrapped in try/except, with
the empty payload substituted when parsing raises (none models a parse
failure). -/
def loadEvent (parsed : Option Payload) : Payload :=
  parsed.getD ⟨none, none, none⟩

/-- The whole script run after GITHUB_EVENT_PATH was found: load the event
(logging on parse failure) and dispatch. -/
def scriptRun (cfg : Config) (ac : AssistantConfig) (w : World)
    (parsed : Option Payload) : List Effect × Nat :=
  let r := mainRun cfg ac w (loadEvent parsed)
  ((if parsed.isNone then [Effect.logError parseFailMsg] else []) ++ r.1, r.2)

/-- Effects that are completion-call attempts. -/
def isCall : Effect → Bool
  | Effect.callAttempt _ => true
  | _ => false

/-- Effects that are network calls (hosting-service or completion). -/
def isNetwork : Effect → Bool
  | Effect.fetchFiles => true
  | Effect.callAttempt _ => true
  | Effect.postComment _ _ _ => true
  | Effect.addLabel _ => true
  | Effect.createLabel _ _ _ => true
  | _ => false

/-- Effects that post a comment. -/
def isPost : Effect → Bool
  | Effect.postComment _ _ _ => true
  | _ => false

/-- Effects that post a comment or touch labels. -/
def isPostOrLabel : Effect → Bool
  | Effect.postComment _ _ _ => true
  | Effect.addLabel _ => true
  | Effect.createLabel _ _ _ => true
  | _ => false

/-- Number of completion-call attempts in a trace. -/
def countCalls (l : List Effect) : Nat :=
  l.countP isCall

/-- The effect trace of k consecutive failed attempts starting at attempt
number a: each failure logs, then sleeps backoff ^ attempt. -/
def failTrace (backoff : ℚ) : Nat → Nat → List Effect
  | _, 0 => []
  | a, k + 1 =>
    Effect.callAttempt a :: Effect.logWarning warnMsg ::
      Effect.sleep (backoff ^ a) :: failTrace backoff (a + 1) k

/-- A trace of k failures contains exactly k call attempts. -/
theorem countCalls_failTrace (backoff : ℚ) :
    ∀ (k a : Nat), countCalls (failTrace backoff a k) = k := by
  intro k
  induction k with
  | zero => intro a; rfl
  | succ k ih =>
    intro a
    simp [failTrace, countCalls, List.countP_cons, isCall] at *
    simpa [countCalls] using ih (a + 1)

/-- A trace of k failures contains no comment or label effects. -/
theorem failTrace_no_post (backoff : ℚ) :
    ∀ (k a : Nat), (failTrace backoff a k).all (fun e => !(isPostOrLabel e)) = true := by
  intro k
  induction k with
  | zero => intro a; rfl
  | succ k ih =>
    intro a
    simp [failTrace, isPostOrLabel]
    simpa using ih (a + 1)

/-- One-step unfolding of the retry loop at positive fuel. -/
theorem retryLoop_succ (api : Nat → Except Unit String) (backoff : ℚ)
    (k attempt : Nat) :
    retryLoop api backoff (k + 1) attempt =
      match api attempt with
      | Except.ok content => ([Effect.callAttempt attempt], some (pyStrip content))
      | Except.error _ =>
        (Effect.callAttempt attempt :: Effect.logWarning warnMsg ::
          Effect.sleep (backoff ^ attempt) ::
            (retryLoop api backoff k (attempt + 1)).1,
         (retryLoop api backoff k (attempt + 1)).2) := by
  rfl

/-- Behaviour of the retry loop when the first k attempts fail and the
next one succeeds: the fail trace, a final bare call attempt, and the
stripped reply. -/
theorem retryLoop_fail_then_ok (api : Nat → Except Unit String) (backoff : ℚ) :
    ∀ (k a : Nat) (r : String),
      (∀ i, a ≤ i → i < a + k → api i = Except.error ()) →
      api (a + k) = Except.ok r →
      retryLoop api backoff (k + 1) a =
        (failTrace backoff a k ++ [Effect.callAttempt (a + k)], some (pyStrip r)) := by
  intro k
  induction k with
  | zero =>
    intro a r _ hok
    simp only [Nat.add_zero] at hok
    rw [retryLoop_succ, hok]
    simp [failTrace]
  | succ k ih =>
    intro a r hfail hok
    have ha : api a = Except.error () := hfail a (Nat.le_refl a) (by omega)
    have hok2 : api (a + 1 + k) = Except.ok r := by
      rw [show a + 1 + k = a + (k + 1) from by omega]; exact hok
    have hrest := ih (a + 1) r (fun i h1 h2 => hfail i (by omega) (by omega)) hok2
    rw [show a + 1 + k = a + (k + 1) from by omega] at hrest
    rw [retryLoop_succ, ha, hrest]
    simp [failTrace]

/-- Behaviour of the retry loop when every attempt fails: the fail trace
and no result. -/
theorem retryLoop_all_fail (api : Nat → Except Unit String) (backoff : ℚ) :
    ∀ (k a : Nat),
      (∀ i, a ≤ i → i < a + k → api i = Except.error ()) →
      retryLoop api backoff k a = (failTrace backoff a k, none) := by
  intro k
  induction k with
  | zero => intro a _; rfl
  | succ k ih =>
    intro a hfail
    have ha : api a = Except.error () := hfail a (Nat.le_refl a) (by omega)
    have hrest := ih (a + 1) (fun i h1 h2 => hfail i (by omega) (by omega))
    rw [retryLoop_succ, ha, hrest]
    simp [failTrace]

/-- Claim C1: when the completion call raises on each of the first
retry_attempts - 1 attempts and succeeds on the last, call_openai_chat
returns the successful (stripped) reply; the trace is exactly the backoff
schedule — after the i-th failed attempt it sleeps backoff ^ i seconds
before attempt i+1 — and the last effect is the final call attempt, so no
sleep follows the final attempt. -/
theorem call_openai_chat_retry_success (cfg : Config) (w : World)
    (msgs : List Message) (r : String)
    (hkey : truthy cfg.openai_api_key = true)
    (hn : 1 ≤ cfg.retry_attempts)
    (hfail : ∀ i, 1 ≤ i → i < cfg.retry_attempts → w.api msgs i = Except.error ())
    (hok : w.api msgs cfg.retry_attempts = Except.ok r) :
    call_openai_chat cfg w msgs =
      (failTrace cfg.retry_backoff 1 (cfg.retry_attempts - 1) ++
        [Effect.callAttempt cfg.retry_attempts], some (pyStrip r))
    ∧ (call_openai_chat cfg w msgs).1.getLast? =
        some (Effect.callAttempt cfg.retry_attempts) := by
  obtain ⟨k, hk⟩ : ∃ k, cfg.retry_attempts = k + 1 :=
    ⟨cfg.retry_attempts - 1, by omega⟩
  have hok2 : w.api msgs (1 + k) = Except.ok r := by
    have : 1 + k = cfg.retry_attempts := by omega
    rw [this]; exact hok
  have hloop := retryLoop_fail_then_ok (w.api msgs) cfg.retry_backoff k 1 r
    (fun i h1 h2 => hfail i h1 (by omega)) hok2
  have hloop2 : retryLoop (w.api msgs) cfg.retry_backoff cfg.retry_attempts 1 =
      (failTrace cfg.retry_backoff 1 (cfg.retry_attempts - 1) ++
        [Effect.callAttempt cfg.retry_attempts], some (pyStrip r)) := by
    rw [hk]
    simpa [Nat.add_comm] using hloop
  have hmain : call_openai_chat cfg w msgs =
      (failTrace cfg.retry_backoff 1 (cfg.retry_attempts - 1) ++
        [Effect.callAttempt cfg.retry_attempts], some (pyStrip r)) := by
    simp [call_openai_chat, hkey, hloop2]
  refine ⟨hmain, ?_⟩
  rw [hmain]
  exact List.getLast?_concat _

/-- Claim C1 witness: defaults (3 attempts, backoff 2), failures on
attempts 1 and 2, success on attempt 3. -/
def cfgDefault : Config :=
  ⟨some "sk-test", some "gh-test", 3, 2, "ai-assisted", 5⟩

def acDefault : AssistantConfig := ⟨none, none, none, [], 40⟩

def wC1 : World :=
  ⟨fun _ n => if n < 3 then Except.error () else Except.ok " ok ", [], fun _ => "", []⟩

theorem call_openai_chat_retry_success_witness :
    truthy cfgDefault.openai_api_key = true ∧ 1 ≤ cfgDefault.retry_attempts ∧
    (call_openai_chat cfgDefault wC1 [] =
      (failTrace cfgDefault.retry_backoff 1 (cfgDefault.retry_attempts - 1) ++
        [Effect.callAttempt cfgDefault.retry_attempts], some (pyStrip " ok "))
    ∧ (call_openai_chat cfgDefault wC1 []).1.getLast? =
        some (Effect.callAttempt cfgDefault.retry_attempts)) := by
  refine ⟨rfl, by decide, call_openai_chat_retry_success cfgDefault wC1 [] " ok " rfl
    (by decide) ?_ rfl⟩
  intro i _ h2
  have : i < 3 := h2
  simp [wC1, this]

/-- Claim C4 (amended): when every one of the retry_attempts attempts
raises, call_openai_chat performs exactly retry_attempts call attempts and
returns none, sleeping retry_backoff ^ attempt_number seconds after every
failed attempt — including the final one — before logging the exhaustion
error. -/
theorem call_openai_chat_retry_exhaustion (cfg : Config) (w : World)
    (msgs : List Message)
    (hkey : truthy cfg.openai_api_key = true)
    (hfail : ∀ i, 1 ≤ i → i < 1 + cfg.retry_attempts → w.api msgs i = Except.error ()) :
    call_openai_chat cfg w msgs =
      (failTrace cfg.retry_backoff 1 cfg.retry_attempts ++ [Effect.logError exhaustMsg],
        none)
    ∧ countCalls (call_openai_chat cfg w msgs).1 = cfg.retry_attempts := by
  have hloop := retryLoop_all_fail (w.api msgs) cfg.retry_backoff cfg.retry_attempts 1
    (fun i h1 h2 => hfail i h1 (by omega))
  have hmain : call_openai_chat cfg w msgs =
      (failTrace cfg.retry_backoff 1 cfg.retry_attempts ++ [Effect.logError exhaustMsg],
        none) := by
    simp [call_openai_chat, hkey, hloop]
  refine ⟨hmain, ?_⟩
  rw [hmain]
  simp [countCalls, List.countP_append, isCall]
  simpa [countCalls] using countCalls_failTrace cfg.retry_backoff cfg.retry_attempts 1

/-- A world whose completion call always raises. -/
def wFail : World :=
  ⟨fun _ _ => Except.error (), [], fun _ => "", []⟩

/-- Claim C4 witness: with the defaults (3 attempts, backoff base 2) and
an always-failing call, the trace is the full schedule and None is
returned. -/
theorem call_openai_chat_retry_exhaustion_witness :
    truthy cfgDefault.openai_api_key = true ∧
    (call_openai_chat cfgDefault wFail [] =
      (failTrace cfgDefault.retry_backoff 1 cfgDefault.retry_attempts ++
        [Effect.logError exhaustMsg], none)
    ∧ countCalls (call_openai_chat cfgDefault wFail []).1 = cfgDefault.retry_attempts) :=
  ⟨rfl, call_openai_chat_retry_exhaustion cfgDefault wFail [] rfl (fun _ _ _ => rfl)⟩

/-- Claim C4 counterexample: with the defaults, the trace of an exhausted
retry ends with a sleep of backoff ^ 3 = 8 seconds after the third and
final failed call attempt (and only then the exhaustion log), so a wait
does occur after the final failed attempt, contrary to the claim. -/
theorem call_openai_chat_sleeps_after_last_attempt :
    (call_openai_chat cfgDefault wFail []).1 =
      [Effect.callAttempt 1, Effect.logWarning warnMsg, Effect.sleep 2,
       Effect.callAttempt 2, Effect.logWarning warnMsg, Effect.sleep 4,
       Effect.callAttempt 3, Effect.logWarning warnMsg, Effect.sleep 8,
       Effect.logError exhaustMsg]
    ∧ (call_openai_chat cfgDefault wFail []).1 ≠
      [Effect.callAttempt 1, Effect.logWarning warnMsg, Effect.sleep 2,
       Effect.callAttempt 2, Effect.logWarning warnMsg, Effect.sleep 4,
       Effect.callAttempt 3, Effect.logError exhaustMsg] := by
  have hloop := retryLoop_all_fail (fun _ => Except.error ()) 2 3 1 (fun i _ _ => rfl)
  have hmain : (call_openai_chat cfgDefault wFail []).1 =
      [Effect.callAttempt 1, Effect.logWarning warnMsg, Effect.sleep 2,
       Effect.callAttempt 2, Effect.logWarning warnMsg, Effect.sleep 4,
       Effect.callAttempt 3, Effect.logWarning warnMsg, Effect.sleep 8,
       Effect.logError exhaustMsg] := by
    have h1 : (2 : ℚ) ^ 1 = 2 := by norm_num
    have h2 : (2 : ℚ) ^ 2 = 4 := by norm_num
    have h3 : (2 : ℚ) ^ 3 = 8 := by norm_num
    have hne : "sk-test".isEmpty = false := rfl
    simp [call_openai_chat, cfgDefault, wFail, truthy, hloop, failTrace, h1, h2, h3, hne]
  refine ⟨hmain, ?_⟩
  rw [hmain]
  intro h
  have := congrArg List.length h
  simp at this

/-- Claim C2 (amended): a failure to parse the event JSON is caught inside
the script — the exception is logged, the event degrades to the empty
payload, the dispatcher takes the no-op branch, and the process exits 0. -/
theorem parse_failure_degrades_and_exits_zero (cfg : Config) (ac : AssistantConfig)
    (w : World) :
    scriptRun cfg ac w none =
      ([Effect.logError parseFailMsg, Effect.logInfo noopMsg], 0) := by
  rfl

/-- Claim C2 counterexample: at the concrete run whose event JSON fails to
parse, the process exit status is 0, not non-zero as the claim states. -/
theorem parse_failure_exit_status_is_zero :
    (scriptRun cfgDefault acDefault wFail none).2 = 0 := by
  rfl

/-- Claim C3: with no truthy OPENAI_API_KEY, call_openai_chat performs zero
completion-call attempts and returns None for every message sequence, and
neither handler ever posts a comment on any payload. -/
theorem no_key_no_call_no_comment (cfg : Config) (ac : AssistantConfig) (w : World)
    (msgs : List Message) (p q : Payload)
    (hkey : truthy cfg.openai_api_key = false) :
    call_openai_chat cfg w msgs = ([Effect.logInfo skipMsg], none)
    ∧ countCalls (call_openai_chat cfg w msgs).1 = 0
    ∧ (handle_pull_request cfg ac w p).all (fun e => !(isPost e)) = true
    ∧ (handle_issue cfg ac w q).all (fun e => !(isPost e)) = true := by
  have hcall : ∀ m, call_openai_chat cfg w m = ([Effect.logInfo skipMsg], none) := by
    intro m
    simp [call_openai_chat, hkey]
  refine ⟨hcall msgs, by rw [hcall msgs]; rfl, ?_, ?_⟩
  · cases hn : (p.pull_request.getD ⟨none, none, none⟩).number with
    | none => simp [handle_pull_request, hn, isPost]
    | some k =>
      by_cases hr : (p.repository_full_name.getD "").isEmpty
      · simp [handle_pull_request, hn, hr, isPost]
      · by_cases ht : truthy cfg.github_token
        · simp [handle_pull_request, hn, hr, ht, hcall, isPost]
        · simp [handle_pull_request, hn, hr, ht, hcall, isPost]
  · cases hn : (q.issue.getD ⟨none, none, none⟩).number with
    | none => simp [handle_issue, hn, isPost]
    | some k =>
      by_cases hr : (q.repository_full_name.getD "").isEmpty
      · simp [handle_issue, hn, hr, isPost]
      · simp [handle_issue, hn, hr, hcall, isPost]

/-- A configuration identical to the defaults except that no OPENAI_API_KEY
is set. -/
def cfgNoKey : Config :=
  ⟨none, some "gh-test", 3, 2, "ai-assisted", 5⟩

/-- The issue event of the spec scenario: issue 42 "Crash on startup" on
acme/widget. -/
def payloadIssue42 : Payload :=
  ⟨none, some ⟨some "Crash on startup", some "", some 42⟩, some "acme/widget"⟩

/-- Claim C3 witness: concrete run with no key on the spec's issue
scenario and on a pull-request payload. -/
theorem no_key_no_call_no_comment_witness :
    truthy cfgNoKey.openai_api_key = false ∧
    (call_openai_chat cfgNoKey wFail [] = ([Effect.logInfo skipMsg], none)
    ∧ countCalls (call_openai_chat cfgNoKey wFail []).1 = 0
    ∧ (handle_pull_request cfgNoKey acDefault wFail
        ⟨some ⟨some "T", some "B", some 7⟩, none, some "acme/widget"⟩).all
        (fun e => !(isPost e)) = true
    ∧ (handle_issue cfgNoKey acDefault wFail payloadIssue42).all
        (fun e => !(isPost e)) = true) :=
  ⟨rfl, no_key_no_call_no_comment cfgNoKey acDefault wFail []
    ⟨some ⟨some "T", some "B", some 7⟩, none, some "acme/widget"⟩ payloadIssue42 rfl⟩

/-- Claim C5: for every combination of inputs, the message sequences built
by build_pr_prompt and build_issue_prompt are non-empty and begin with a
system-role message. -/
theorem prompts_nonempty_and_system_first (t b rf : String) (cf : List String)
    (sn : List (String × String)) (n m : Int) (ac : AssistantConfig) :
    build_pr_prompt t b cf sn rf n ac ≠ []
    ∧ (build_pr_prompt t b cf sn rf n ac).head?.map Message.role = some Role.system
    ∧ build_issue_prompt t b rf m ac ≠ []
    ∧ (build_issue_prompt t b rf m ac).head?.map Message.role = some Role.system := by
  refine ⟨?_, rfl, ?_, rfl⟩
  · simp [build_pr_prompt]
  · simp [build_issue_prompt]

/-- An assistant configuration whose PR and issue templates reference a
placeholder that is never supplied, so formatting raises. -/
def acBadTemplates : AssistantConfig :=
  ⟨none, some "{nope}", some "{nope}", [], 40⟩

/-- Claim C6 counterexample: for the PR builder the malformed-template
fallback is NOT the same sentence as the missing-template default — the
user message differs between a config with a malformed pr_prompt and a
config with none (the default carries the extra Task sentence). -/
theorem pr_fallback_differs_from_default :
    ((build_pr_prompt "T" "B" [] [] "acme/widget" 7 acBadTemplates).map
      Message.content).getD 2 "" ≠
    ((build_pr_prompt "T" "B" [] [] "acme/widget" 7 acDefault).map
      Message.content).getD 2 "" := by
  decide

set_option maxRecDepth 8000 in
/-- Claim C6 (amended): a malformed configured template (formatting raises)
and an absent template both degrade to a fixed fallback user content and
never abort; for the issue builder the two fallbacks are the same fixed
sentence, but for the PR builder the malformed-template fallback lacks the
Task sentence of the missing-template default, so the two differ. -/
theorem template_failure_falls_back (t b rf : String) (cf : List String)
    (n m : Int) (acA acB : AssistantConfig) (tplP tplI : String)
    (hP : acA.pr_prompt = some tplP) (hPne : tplP.isEmpty = false)
    (hPf : formatTemplate (prFields t b cf rf n) tplP = none)
    (hI : acA.issue_prompt = some tplI) (hIne : tplI.isEmpty = false)
    (hIf : formatTemplate (issueFields t b rf m) tplI = none)
    (hBp : acB.pr_prompt = none) (hBi : acB.issue_prompt = none) :
    prUserContent t b cf rf n acA = prFallbackUser t b cf
    ∧ prUserContent t b cf rf n acB = prDefaultUser t b cf
    ∧ issueUserContent t b rf m acA = issueFallbackUser t b
    ∧ issueUserContent t b rf m acB = issueFallbackUser t b
    ∧ prUserContent t b cf rf n acA ≠ prUserContent t b cf rf n acB := by
  have hemp : "".isEmpty = true := rfl
  have h1 : prUserContent t b cf rf n acA = prFallbackUser t b cf := by
    simp [prUserContent, hP, hPne, hPf]
  have h2 : prUserContent t b cf rf n acB = prDefaultUser t b cf := by
    simp [prUserContent, hBp, hemp]
  refine ⟨h1, h2, ?_, ?_, ?_⟩
  · simp [issueUserContent, hI, hIne, hIf]
  · simp [issueUserContent, hBi, hemp]
  · rw [h1, h2]
    intro h
    have hlen := congrArg String.length h
    simp only [prDefaultUser, String.length_append] at hlen
    have ht : 0 < prTaskSentence.length := by decide
    omega

/-- Claim C6 witness: the malformed "{nope}" templates versus the default
(template-less) configuration, at concrete inputs. -/
theorem template_failure_falls_back_witness :
    acBadTemplates.pr_prompt = some "{nope}" ∧
    formatTemplate (prFields "T" "B" [] "acme/widget" 7) "{nope}" = none ∧
    (prUserContent "T" "B" [] "acme/widget" 7 acBadTemplates =
        prFallbackUser "T" "B" []
    ∧ prUserContent "T" "B" [] "acme/widget" 7 acDefault = prDefaultUser "T" "B" []
    ∧ issueUserContent "T" "B" "acme/widget" 7 acBadTemplates =
        issueFallbackUser "T" "B"
    ∧ issueUserContent "T" "B" "acme/widget" 7 acDefault = issueFallbackUser "T" "B"
    ∧ prUserContent "T" "B" [] "acme/widget" 7 acBadTemplates ≠
        prUserContent "T" "B" [] "acme/widget" 7 acDefault) :=
  ⟨rfl, by decide,
    template_failure_falls_back "T" "B" "acme/widget" [] 7 7 acBadTemplates acDefault
      "{nope}" "{nope}" rfl rfl (by decide) rfl rfl (by decide) rfl rfl⟩

/-- Python-dict freshness: inserting an absent key appends it. -/
theorem dictInsert_fresh (d : List (String × String)) (k v : String)
    (h : d.any (fun q => q.1 == k) = false) :
    dictInsert d k v = d ++ [(k, v)] := by
  simp [dictInsert, h]

/-- Folding dict insertion over pairwise-distinct fresh keys appends one
entry per key, in order. -/
theorem foldl_dictInsert_map (f : String → String) :
    ∀ (l : List String) (acc : List (String × String)),
      l.Nodup →
      (∀ p ∈ l, acc.any (fun q => q.1 == p) = false) →
      l.foldl (fun a path => dictInsert a path (f path)) acc =
        acc ++ l.map (fun p => (p, f p)) := by
  intro l
  induction l with
  | nil => intro acc _ _; simp
  | cons p l ih =>
    intro acc hnd hfresh
    have hp := hfresh p (List.mem_cons_self p l)
    rw [List.foldl_cons, dictInsert_fresh acc p (f p) hp, ih]
    · simp
    · exact hnd.of_cons
    · intro q hq
      have h1 := hfresh q (List.mem_cons_of_mem p hq)
      have hne : p ≠ q := by
        intro hpq
        rw [hpq] at hnd
        exact (List.nodup_cons.mp hnd).1 hq
      simp [List.any_append, h1, hne]

/-- Claim C7: when the changed-file listing has more than max_snippet_files
distinct paths (each changed file listed once), the snippet mapping has
exactly max_snippet_files entries, namely the first max_snippet_files files
in listing order. -/
theorem snippet_cap (w : World) (files : List String) (m : Nat)
    (hnd : files.Nodup) (hlen : m < files.length) :
    buildSnippets w files m = (files.take m).map (fun p => (p, w.snippetOf p))
    ∧ (buildSnippets w files m).length = m := by
  have hne : files.isEmpty = false := by
    cases files with
    | nil => simp at hlen
    | cons a l => rfl
  have hndtake : (files.take m).Nodup := (List.take_sublist m files).nodup hnd
  have hmain : buildSnippets w files m =
      (files.take m).map (fun p => (p, w.snippetOf p)) := by
    have hfold := foldl_dictInsert_map w.snippetOf (files.take m) [] hndtake
      (fun p _ => rfl)
    simp only [buildSnippets, hne, Bool.false_eq_true, if_false]
    simpa using hfold
  refine ⟨hmain, ?_⟩
  rw [hmain]
  simp [List.length_take]
  omega

/-- A world listing ten changed files. -/
def w10 : World :=
  ⟨fun _ _ => Except.error (),
   ["f0", "f1", "f2", "f3", "f4", "f5", "f6", "f7", "f8", "f9"],
   fun p => "s-" ++ p, []⟩

/-- Claim C7 witness: ten distinct changed files and a cap of five yield
exactly the first five entries. -/
theorem snippet_cap_witness :
    w10.changedFiles.Nodup ∧ 5 < w10.changedFiles.length ∧
    (buildSnippets w10 w10.changedFiles 5 =
        (w10.changedFiles.take 5).map (fun p => (p, w10.snippetOf p))
    ∧ (buildSnippets w10 w10.changedFiles 5).length = 5) :=
  ⟨by decide, by decide, snippet_cap w10 w10.changedFiles 5 (by decide) (by decide)⟩

/-- Claim C8: an event payload with neither a pull_request nor an issue key
makes the run emit exactly one informational log line, perform no network
effects, and exit 0. -/
theorem unrecognized_event_no_op (cfg : Config) (ac : AssistantConfig) (w : World)
    (ev : Payload) (h1 : ev.pull_request = none) (h2 : ev.issue = none) :
    mainRun cfg ac w ev = ([Effect.logInfo noopMsg], 0)
    ∧ (mainRun cfg ac w ev).1.all (fun e => !(isNetwork e)) = true := by
  have hmain : mainRun cfg ac w ev = ([Effect.logInfo noopMsg], 0) := by
    simp [mainRun, h1, h2]
  refine ⟨hmain, ?_⟩
  rw [hmain]
  rfl

/-- Claim C8 witness: the empty payload. -/
theorem unrecognized_event_no_op_witness :
    (⟨none, none, none⟩ : Payload).pull_request = none ∧
    (⟨none, none, none⟩ : Payload).issue = none ∧
    (mainRun cfgDefault acDefault wFail ⟨none, none, none⟩ =
        ([Effect.logInfo noopMsg], 0)
    ∧ (mainRun cfgDefault acDefault wFail ⟨none, none, none⟩).1.all
        (fun e => !(isNetwork e)) = true) :=
  ⟨rfl, rfl, unrecognized_event_no_op cfgDefault acDefault wFail ⟨none, none, none⟩ rfl rfl⟩

/-- Claim C9: whenever the completion call returns a (non-blank) reply text
and a hosting token is present, handle_issue posts one comment whose body
is the fixed prefix, the reply exactly as returned by the completion
caller, and the fixed disclaimer suffix, and attaches the configured label,
creating it first when it is not among the repository's labels. -/
theorem issue_comment_format_and_label (cfg : Config) (ac : AssistantConfig)
    (w : World) (title bodyText repoName : String) (n : Int) (s : String)
    (hgh : truthy cfg.github_token = true)
    (hrepo : repoName.isEmpty = false)
    (hsugg : (call_openai_chat cfg w
        (build_issue_prompt title bodyText repoName n ac)).2 = some s)
    (hs : s.isEmpty = false) :
    handle_issue cfg ac w ⟨none, some ⟨some title, some bodyText, some n⟩, some repoName⟩ =
      Effect.logInfo issueHandlingMsg ::
        (call_openai_chat cfg w (build_issue_prompt title bodyText repoName n ac)).1 ++
        Effect.postComment repoName n (issueCommentPre ++ s ++ issueCommentSuf) ::
        (if w.labels.contains cfg.assistant_label then
          [Effect.addLabel cfg.assistant_label]
        else
          [Effect.createLabel cfg.assistant_label "f29513" "AI-assisted content",
           Effect.addLabel cfg.assistant_label]) := by
  simp [handle_issue, hrepo, hsugg, hs, safe_post_comment_and_label, hgh]

/-- The world of the spec scenario: the completion call replies with the
triage sentence; the repository has no labels yet. -/
def wC9 : World :=
  ⟨fun _ _ => Except.ok "Likely a null dereference; request logs.", [], fun _ => "", []⟩

set_option maxRecDepth 8000 in
/-- Claim C9 witness: the spec's issue scenario — the posted comment is the
fixed prefix, the verbatim reply, and the fixed disclaimer, and the
"ai-assisted" label is created and attached. -/
theorem issue_comment_format_and_label_witness :
    handle_issue cfgDefault acDefault wC9 payloadIssue42 =
      [Effect.logInfo issueHandlingMsg, Effect.callAttempt 1,
       Effect.postComment "acme/widget" 42
         ":robot: AI assistant triage suggestion (please review):\n\nLikely a null dereference; request logs.\n\n_Note: This is an automated suggestion. All AI-generated content must be reviewed by a human._",
       Effect.createLabel "ai-assisted" "f29513" "AI-assisted content",
       Effect.addLabel "ai-assisted"] := by
  have h := issue_comment_format_and_label cfgDefault acDefault wC9
    "Crash on startup" "" "acme/widget" 42 "Likely a null dereference; request logs."
    rfl rfl (by decide) (by decide)
  rw [show payloadIssue42 =
    (⟨none, some ⟨some "Crash on startup", some "", some 42⟩, some "acme/widget"⟩ :
      Payload) from rfl, h]
  decide

/-- Claim C10: when the completion call succeeds but the reply strips to
the empty string, call_openai_chat returns some "" and both handlers treat
it like the absence signal: no comment is posted and no label is touched. -/
theorem blank_reply_treated_as_absent (cfg : Config) (ac : AssistantConfig)
    (w : World) (p q : Payload) (msgs : List Message) (r : String)
    (hkey : truthy cfg.openai_api_key = true)
    (hatt : 1 ≤ cfg.retry_attempts)
    (hapi : ∀ m, w.api m 1 = Except.ok r)
    (hblank : pyStrip r = "") :
    (call_openai_chat cfg w msgs).2 = some ""
    ∧ (handle_pull_request cfg ac w p).all (fun e => !(isPostOrLabel e)) = true
    ∧ (handle_issue cfg ac w q).all (fun e => !(isPostOrLabel e)) = true := by
  obtain ⟨k, hk⟩ : ∃ k, cfg.retry_attempts = k + 1 :=
    ⟨cfg.retry_attempts - 1, by omega⟩
  have hemp : "".isEmpty = true := rfl
  have hcall : ∀ m, call_openai_chat cfg w m = ([Effect.callAttempt 1], some "") := by
    intro m
    simp [call_openai_chat, hkey, hk, retryLoop_succ, hapi, hblank]
  refine ⟨by rw [hcall msgs], ?_, ?_⟩
  · cases hn : (p.pull_request.getD ⟨none, none, none⟩).number with
    | none => simp [handle_pull_request, hn, isPostOrLabel]
    | some j =>
      by_cases hrep : (p.repository_full_name.getD "").isEmpty
      · simp [handle_pull_request, hn, hrep, isPostOrLabel]
      · by_cases ht : truthy cfg.github_token
        · simp [handle_pull_request, hn, hrep, ht, hcall, hemp, isPostOrLabel]
        · simp [handle_pull_request, hn, hrep, ht, hcall, hemp, isPostOrLabel]
  · cases hn : (q.issue.getD ⟨none, none, none⟩).number with
    | none => simp [handle_issue, hn, isPostOrLabel]
    | some j =>
      by_cases hrep : (q.repository_full_name.getD "").isEmpty
      · simp [handle_issue, hn, hrep, isPostOrLabel]
      · simp [handle_issue, hn, hrep, hcall, hemp, isPostOrLabel]

/-- A world whose completion call replies with whitespace only. -/
def wBlank : World :=
  ⟨fun _ _ => Except.ok "  \n ", [], fun _ => "", []⟩

/-- Claim C10 witness: a whitespace-only reply on concrete pull-request and
issue payloads. -/
theorem blank_reply_treated_as_absent_witness :
    pyStrip "  \n " = "" ∧
    ((call_openai_chat cfgDefault wBlank []).2 = some ""
    ∧ (handle_pull_request cfgDefault acDefault wBlank
        ⟨some ⟨some "T", some "B", some 7⟩, none, some "acme/widget"⟩).all
        (fun e => !(isPostOrLabel e)) = true
    ∧ (handle_issue cfgDefault acDefault wBlank payloadIssue42).all
        (fun e => !(isPostOrLabel e)) = true) :=
  ⟨by decide, blank_reply_treated_as_absent cfgDefault acDefault wBlank
    ⟨some ⟨some "T", some "B", some 7⟩, none, some "acme/widget"⟩ payloadIssue42 []
    "  \n " rfl (by decide) (fun _ => rfl) (by decide)⟩

end Assistant
